import Mathlib

/-!
Shallow embedding of the crypto-scanner core (scanners/ema_touch.py,
scanners/daily_flip.py, scanners/ath_atl_scanner.py, scanners/volume.py)
and proofs checking the natural-language specification against it.

Machine conventions: Python float prices are modelled as exact rationals,
Python naive datetime values as a record of calendar fields, Python dicts
as association lists, and fallible code as Option.
-/

/-- Python naive datetime: the seven calendar and time fields. -/
structure DateTime where
  year : Nat
  month : Nat
  day : Nat
  hour : Nat
  minute : Nat
  second : Nat
  microsecond : Nat
deriving DecidableEq

/-- Field ranges of a real datetime value (datetime.MINYEAR = 1,
datetime.MAXYEAR = 9999, microsecond below 10^6). -/
def DateTime.Valid (d : DateTime) : Prop :=
  1 ≤ d.year ∧ d.year ≤ 9999 ∧ 1 ≤ d.month ∧ d.month ≤ 12 ∧
  1 ≤ d.day ∧ d.day ≤ 31 ∧ d.hour < 24 ∧ d.minute < 60 ∧
  d.second < 60 ∧ d.microsecond < 1000000

instance (d : DateTime) : Decidable d.Valid := by
  unfold DateTime.Valid; infer_instance

/-- Leap-year test of the proleptic Gregorian calendar (CPython
datetime._is_leap). -/
def isLeapYear (y : Nat) : Bool :=
  y % 4 == 0 && (y % 100 != 0 || y % 400 == 0)

/-- Days in each month of a non-leap year (CPython datetime._DAYS_IN_MONTH). -/
def daysInMonthList : List Nat := [31, 28, 31, 30, 31, 30, 31, 31, 30, 31, 30, 31]

/-- Days in the year strictly before month m (CPython datetime._days_before_month). -/
def daysBeforeMonth (y m : Nat) : Nat :=
  (daysInMonthList.take (m - 1)).sum + (if 2 < m ∧ isLeapYear y then 1 else 0)

/-- Days strictly before January 1 of year y (CPython datetime._days_before_year). -/
def daysBeforeYear (y : Nat) : Nat :=
  365 * (y - 1) + (y - 1) / 4 - (y - 1) / 100 + (y - 1) / 400

/-- Proleptic Gregorian ordinal of the date (CPython datetime._ymd2ord):
January 1 of year 1 is day 1. -/
def DateTime.toOrdinal (d : DateTime) : Nat :=
  daysBeforeYear d.year + daysBeforeMonth d.year d.month + d.day

def usPerHour : Nat := 3600000000

def usPerDay : Nat := 86400000000

/-- Microseconds from the epoch of the proleptic calendar; datetime
subtraction in CPython reduces to the difference of these counts
(toordinal days plus the time-of-day fields). -/
def DateTime.toMicro (d : DateTime) : Nat :=
  d.toOrdinal * usPerDay + d.hour * usPerHour +
    d.minute * 60000000 + d.second * 1000000 + d.microsecond

/-- Python subtraction of two naive datetimes, as a signed count of
microseconds. -/
def dtSubMicro (a b : DateTime) : Int :=
  (a.toMicro : Int) - (b.toMicro : Int)

/-- Python comparison of naive datetimes: lexicographic on the field tuple. -/
def pyDatetimeLt (a b : DateTime) : Prop :=
  a.year < b.year ∨ (a.year = b.year ∧
    (a.month < b.month ∨ (a.month = b.month ∧
      (a.day < b.day ∨ (a.day = b.day ∧
        (a.hour < b.hour ∨ (a.hour = b.hour ∧
          (a.minute < b.minute ∨ (a.minute = b.minute ∧
            (a.second < b.second ∨ (a.second = b.second ∧
              a.microsecond < b.microsecond)))))))))))

instance : DecidableRel pyDatetimeLt := by
  unfold pyDatetimeLt; infer_instance

/-- Python comparison a ≤ b on naive datetimes. -/
def pyDatetimeLe (a b : DateTime) : Prop :=
  pyDatetimeLt a b ∨ a = b

/-- now.replace with hour 0, minute 0, second 0, microsecond 0: the start of
the current UTC daily candle (ema_touch.py lines 150 and 161). -/
def replaceMidnight (d : DateTime) : DateTime :=
  { d with hour := 0, minute := 0, second := 0, microsecond := 0 }

/-- Two datetimes lie on the same UTC calendar day. -/
def sameUTCDay (a b : DateTime) : Prop :=
  a.year = b.year ∧ a.month = b.month ∧ a.day = b.day

/-- EMAScanner.is_in_cooldown (ema_touch.py lines 147 to 174): period-aligned
suppression; returns False when the last alert lies on an earlier daily
candle than now, True when not (the prints touch no state). -/
def ema_is_in_cooldown (last_alerts : List (String × DateTime))
    (symbol : String) (now : DateTime) : Bool :=
  let current_candle_start := replaceMidnight now
  match last_alerts.lookup symbol with
  | none => false
  | some last_alert_time =>
      if pyDatetimeLt (replaceMidnight last_alert_time) current_candle_start then
        false
      else
        true

/-- DailyFlipScanner.is_in_cooldown (daily_flip.py lines 56 to 72):
rolling-window suppression, (now - last_alert_time) < timedelta(hours =
cooldown_hours). -/
def flip_is_in_cooldown (last_alerts : List (String × DateTime))
    (symbol : String) (now : DateTime) (cooldown_hours : Nat) : Bool :=
  match last_alerts.lookup symbol with
  | none => false
  | some last_alert_time =>
      decide (dtSubMicro now last_alert_time < (cooldown_hours * usPerHour : Nat))

/-- ATHATLScanner.is_in_cooldown (ath_atl_scanner.py lines 84 to 102): picks
the ath or atl map by alert_type, then the same rolling-window test. -/
def athatl_is_in_cooldown (last_ath_alerts last_atl_alerts : List (String × DateTime))
    (alert_type : String) (symbol : String) (now : DateTime)
    (cooldown_hours : Nat) : Bool :=
  let alerts_dict := if alert_type == "ath" then last_ath_alerts else last_atl_alerts
  match alerts_dict.lookup symbol with
  | none => false
  | some last_alert_time =>
      decide (dtSubMicro now last_alert_time < (cooldown_hours * usPerHour : Nat))

/-- VolumeScanner.is_in_cooldown (volume.py lines 63 to 81): picks the gainer
or loser map by alert_type, then the same rolling-window test. -/
def volume_is_in_cooldown (last_gainers last_losers : List (String × DateTime))
    (alert_type : String) (symbol : String) (now : DateTime)
    (cooldown_hours : Nat) : Bool :=
  let alerts_dict := if alert_type == "gainer" then last_gainers else last_losers
  match alerts_dict.lookup symbol with
  | none => false
  | some last_alert_time =>
      decide (dtSubMicro now last_alert_time < (cooldown_hours * usPerHour : Nat))

/-- The state a scanner holds about cooldowns: the in-memory map (a python
dict, insertion ordered) and the persisted file contents (none while the
file is missing). -/
structure CooldownState where
  mem : List (String × DateTime)
  file : Option (List (String × String))
deriving DecidableEq

/-- Python dict assignment d[k] = v: overwrite the live entry for k when one
exists, otherwise append a new entry. -/
def dictInsert (k : String) (v : DateTime) (m : List (String × DateTime)) :
    List (String × DateTime) :=
  if (m.lookup k).isSome then
    m.map (fun kv => if kv.1 == k then (k, v) else kv)
  else
    m ++ [(k, v)]

/-- Character for one decimal digit. -/
def digitChar (n : Nat) : Char := Char.ofNat (48 + n)

/-- Numeric value of a decimal digit character. -/
def charVal (c : Char) : Nat := c.toNat - 48

/-- Decimal digit test on a character. -/
def isDigitChar (c : Char) : Bool := 48 ≤ c.toNat && c.toNat ≤ 57

/-- Zero-padded w-digit decimal rendering of n, most significant digit
first (the %02d and %04d and %06d paddings of CPython isoformat). -/
def padDigits : Nat → Nat → List Char
  | 0, _ => []
  | w + 1, n => digitChar (n / 10 ^ w) :: padDigits w (n % 10 ^ w)

/-- Read exactly w decimal digits, extending the accumulator; fails on a
non-digit or on running out of input. -/
def parseDigits : Nat → Nat → List Char → Option (Nat × List Char)
  | 0, acc, rest => some (acc, rest)
  | _ + 1, _, [] => none
  | w + 1, acc, c :: rest =>
      if isDigitChar c then parseDigits w (acc * 10 + charVal c) rest else none

/-- Consume one expected separator character. -/
def expectChar (c : Char) : List Char → Option (List Char)
  | [] => none
  | x :: rest => if x = c then some rest else none

/-- Characters of datetime.isoformat() for a naive value: the date, the
letter T, the time, and a 6-digit fraction exactly when microsecond is
nonzero (CPython datetime.isoformat with the default separator). -/
def DateTime.isoChars (d : DateTime) : List Char :=
  padDigits 4 d.year ++ ('-' ::
    (padDigits 2 d.month ++ ('-' ::
      (padDigits 2 d.day ++ ('T' ::
        (padDigits 2 d.hour ++ (':' ::
          (padDigits 2 d.minute ++ (':' ::
            (padDigits 2 d.second ++
              (if d.microsecond = 0 then []
               else '.' :: padDigits 6 d.microsecond)))))))))))

/-- datetime.isoformat() as a string. -/
def DateTime.isoformat (d : DateTime) : String := String.mk d.isoChars

/-- Final step of parsing an isoformat string: all input must be consumed,
and the field ranges are validated as CPython does (a 13th month raises). -/
def finishIso (y mo da h mi s us : Nat) (cs : List Char) : Option DateTime :=
  match cs with
  | [] =>
      let d : DateTime := ⟨y, mo, da, h, mi, s, us⟩
      if d.Valid then some d else none
  | _ => none

/-- datetime.fromisoformat on the canonical isoformat output shape:
date, then the letter T, then the time, then an optional 6-digit
fraction; any shape deviation or out-of-range field fails. -/
def fromisoChars (cs : List Char) : Option DateTime :=
  match parseDigits 4 0 cs with
  | none => none
  | some (y, cs) =>
  match expectChar '-' cs with
  | none => none
  | some cs =>
  match parseDigits 2 0 cs with
  | none => none
  | some (mo, cs) =>
  match expectChar '-' cs with
  | none => none
  | some cs =>
  match parseDigits 2 0 cs with
  | none => none
  | some (da, cs) =>
  match expectChar 'T' cs with
  | none => none
  | some cs =>
  match parseDigits 2 0 cs with
  | none => none
  | some (h, cs) =>
  match expectChar ':' cs with
  | none => none
  | some cs =>
  match parseDigits 2 0 cs with
  | none => none
  | some (mi, cs) =>
  match expectChar ':' cs with
  | none => none
  | some cs =>
  match parseDigits 2 0 cs with
  | none => none
  | some (s, cs) =>
  match cs with
  | '.' :: cs =>
      (match parseDigits 6 0 cs with
       | none => none
       | some (us, cs) => finishIso y mo da h mi s us cs)
  | cs => finishIso y mo da h mi s 0 cs

/-- datetime.fromisoformat as a string function. -/
def pyFromisoformat (s : String) : Option DateTime := fromisoChars s.data

/-- The persisted textual form written by _save_cooldown (ema_touch.py lines
113 to 145 and its copies): the content of the JSON object, one
key to isoformat-string entry per cooldown entry. -/
def saveCooldown (m : List (String × DateTime)) : List (String × String) :=
  m.map (fun kv => (kv.1, kv.2.isoformat))

/-- The _load_cooldown conversion (ema_touch.py lines 92 to 111 and its
copies): parse every value with fromisoformat; any failure raises, which
the caller turns into the empty state, so the parsed map is Option. -/
def loadCooldown (data : List (String × String)) :
    Option (List (String × DateTime)) :=
  data.mapM (fun kv => (pyFromisoformat kv.2).map (fun d => (kv.1, d)))

/-- EMAScanner.is_in_cooldown as an explicit state transformer: the method
body only reads self.last_alerts and prints, so the translation returns
the state it was given. -/
def ema_is_in_cooldown_st (st : CooldownState) (symbol : String)
    (now : DateTime) : Bool × CooldownState :=
  (ema_is_in_cooldown st.mem symbol now, st)

/-- DailyFlipScanner.is_in_cooldown as an explicit state transformer. -/
def flip_is_in_cooldown_st (st : CooldownState) (symbol : String)
    (now : DateTime) (cooldown_hours : Nat) : Bool × CooldownState :=
  (flip_is_in_cooldown st.mem symbol now cooldown_hours, st)

/-- ATHATLScanner.is_in_cooldown as an explicit state transformer over the
pair of its two cooldown states. -/
def athatl_is_in_cooldown_st (st : CooldownState × CooldownState)
    (alert_type : String) (symbol : String) (now : DateTime)
    (cooldown_hours : Nat) : Bool × (CooldownState × CooldownState) :=
  (athatl_is_in_cooldown st.1.mem st.2.mem alert_type symbol now cooldown_hours, st)

/-- VolumeScanner.is_in_cooldown as an explicit state transformer over the
pair of its two cooldown states. -/
def volume_is_in_cooldown_st (st : CooldownState × CooldownState)
    (alert_type : String) (symbol : String) (now : DateTime)
    (cooldown_hours : Nat) : Bool × (CooldownState × CooldownState) :=
  (volume_is_in_cooldown st.1.mem st.2.mem alert_type symbol now cooldown_hours, st)

/-- DailyFlipScanner.mark_alerted (daily_flip.py lines 74 to 77): write the
current instant into the map and save write-through to the file. -/
def flip_mark_alerted (st : CooldownState) (symbol : String)
    (now : DateTime) : CooldownState :=
  let mem := dictInsert symbol now st.mem
  { mem := mem, file := some (saveCooldown mem) }

/-- calculate_ema (ema_touch.py lines 236 to 249): None when the series is
shorter than the period; otherwise the simple average of the first period
closes, then one recurrence step per later close, left to right. -/
def calculate_ema (prices : List ℚ) (period : Nat) : Option ℚ :=
  if prices.length < period then
    none
  else
    let multiplier : ℚ := 2 / (period + 1)
    let ema : ℚ := (prices.take period).sum / period
    some ((prices.drop period).foldl
      (fun ema price => (price - ema) * multiplier + ema) ema)

/-- The recurrence stated by the spec: for each subsequent close in
ascending time order, ema = (close - ema_prev) * (2/(period+1)) + ema_prev,
written as explicit recursion to compare against calculate_ema. -/
def emaRecurrence (multiplier : ℚ) : ℚ → List ℚ → ℚ
  | ema_prev, [] => ema_prev
  | ema_prev, close :: rest =>
      emaRecurrence multiplier ((close - ema_prev) * multiplier + ema_prev) rest

/-- One Bybit kline row [startTime, open, high, low, close, volume,
turnover], the prices already converted from strings to numbers. -/
structure Kline where
  startTime : Int
  openPrice : ℚ
  high : ℚ
  low : ℚ
  close : ℚ
  volume : ℚ
  turnover : ℚ
deriving DecidableEq

/-- klines.sort keyed by the start timestamp, ascending and stable. -/
def sortKlinesByTime (klines : List Kline) : List Kline :=
  List.insertionSort (fun a b => a.startTime ≤ b.startTime) klines

/-- The per-symbol indicator record returned by
fetch_klines_and_calculate_ema on success. -/
structure EmaData where
  current_price : ℚ
  ema60 : ℚ
  ema5 : Option ℚ
  ema10 : Option ℚ
  ema223 : Option ℚ
  distance_pct : ℚ
deriving DecidableEq

/-- The pure tail of EMAScanner.fetch_klines_and_calculate_ema (ema_touch.py
lines 219 to 273), after the network response became a kline list: reject
fewer than 223 candles, sort ascending by timestamp, compute the four EMAs
over the closes, reject a missing EMA 60, report the last close and its
absolute percent distance from EMA 60. -/
def processKlines (klines : List Kline) : Option EmaData :=
  if klines.length < 223 then
    none
  else
    let closes := (sortKlinesByTime klines).map (fun k => k.close)
    let ema5 := calculate_ema closes 5
    let ema10 := calculate_ema closes 10
    let ema60opt := calculate_ema closes 60
    let ema223 := calculate_ema closes 223
    match ema60opt with
    | none => none
    | some ema60 =>
        let current_price := closes.getLast?.getD 0
        some { current_price := current_price, ema60 := ema60,
               ema5 := ema5, ema10 := ema10, ema223 := ema223,
               distance_pct := |(current_price - ema60) / ema60 * 100| }

/-- A candidate EMA-touch alert entry (ema_touch.py lines 358 to 365). -/
structure EmaCoin where
  symbol : String
  price : ℚ
  ema60 : ℚ
  distance_pct : ℚ
  approach : String
  volume_24h : ℚ
deriving DecidableEq

/-- The per-symbol body of EMAScanner.scan (ema_touch.py lines 343 to 365):
skip when the indicator fetch produced nothing, alert when the distance is
under the threshold and the symbol is not cooling down. -/
def emaEvaluateSymbol (ema_touch_threshold : ℚ) (in_cooldown : Bool)
    (symbol : String) (volume_24h : ℚ) (klines : List Kline) : Option EmaCoin :=
  match processKlines klines with
  | none => none
  | some ema_data =>
      if ema_data.distance_pct < ema_touch_threshold then
        if in_cooldown then
          none
        else
          some { symbol := symbol, price := ema_data.current_price,
                 ema60 := ema_data.ema60, distance_pct := ema_data.distance_pct,
                 approach := if ema_data.current_price > ema_data.ema60 then
                     "from above" else "from below",
                 volume_24h := volume_24h }
      else
        none

/-- The extremum record of ATHATLScanner.calculate_ath_atl. -/
structure AthAtlData where
  ath : ℚ
  atl : ℚ
  ath_distance_pct : ℚ
  atl_distance_pct : ℚ
deriving DecidableEq

/-- ATHATLScanner.calculate_ath_atl (ath_atl_scanner.py lines 155 to 189):
max of the highs and min of the lows over the klines, and the two signed
percent distances; python max of an empty list raises, which the handler
turns into None. -/
def calculate_ath_atl (klines : List Kline) (current_price : ℚ) :
    Option AthAtlData :=
  match klines with
  | [] => none
  | k :: ks =>
      let ath := (ks.map (fun x => x.high)).foldl max k.high
      let atl := (ks.map (fun x => x.low)).foldl min k.low
      some { ath := ath, atl := atl,
             ath_distance_pct := (ath - current_price) / ath * 100,
             atl_distance_pct := (current_price - atl) / atl * 100 }

/-- A candidate ATH alert entry (ath_atl_scanner.py lines 275 to 282). -/
structure AthCoin where
  symbol : String
  price : ℚ
  ath : ℚ
  distance_pct : ℚ
  is_new_ath : Bool
  change_pct : ℚ
deriving DecidableEq

/-- A candidate ATL alert entry (ath_atl_scanner.py lines 293 to 300). -/
structure AtlCoin where
  symbol : String
  price : ℚ
  atl : ℚ
  distance_pct : ℚ
  is_new_atl : Bool
  change_pct : ℚ
deriving DecidableEq

/-- The per-symbol body of ATHATLScanner.scan (ath_atl_scanner.py lines 257
to 303): compute the extrema, then the ATH branch fires on
ath_distance_pct ≤ proximity_threshold and the ATL branch fires on
atl_distance_pct ≥ -proximity_threshold, each gated by its enable flag and
its cooldown; the new-extremum flags compare the price against the
extremum. -/
def athAtlEvaluateSymbol (ath_enabled atl_enabled : Bool)
    (proximity_threshold : ℚ) (in_cooldown_ath in_cooldown_atl : Bool)
    (symbol : String) (current_price change_pct : ℚ) (klines : List Kline) :
    Option AthCoin × Option AtlCoin :=
  match calculate_ath_atl klines current_price with
  | none => (none, none)
  | some d =>
      let athCoin : Option AthCoin :=
        if ath_enabled ∧ d.ath_distance_pct ≤ proximity_threshold then
          if in_cooldown_ath then
            none
          else
            some { symbol := symbol, price := current_price, ath := d.ath,
                   distance_pct := d.ath_distance_pct,
                   is_new_ath := decide (current_price ≥ d.ath),
                   change_pct := change_pct }
        else
          none
      let atlCoin : Option AtlCoin :=
        if atl_enabled ∧ d.atl_distance_pct ≥ -proximity_threshold then
          if in_cooldown_atl then
            none
          else
            some { symbol := symbol, price := current_price, atl := d.atl,
                   distance_pct := |d.atl_distance_pct|,
                   is_new_atl := decide (current_price ≤ d.atl),
                   change_pct := change_pct }
        else
          none
      (athCoin, atlCoin)

/-- One filtered ticker entry carrying the symbol and its 24h change
percent, the shape the ranking step works on. -/
structure RankedPair where
  symbol : String
  change_pct : ℚ
deriving DecidableEq

/-- The descending relation the ranking sorts by. -/
def changeDescRel (a b : RankedPair) : Prop := b.change_pct ≤ a.change_pct

instance : DecidableRel changeDescRel := by
  unfold changeDescRel; infer_instance

instance : IsTotal RankedPair changeDescRel :=
  ⟨fun a b => (le_total b.change_pct a.change_pct).imp id id⟩

instance : IsTrans RankedPair changeDescRel :=
  ⟨fun _ _ _ hab hbc => le_trans hbc hab⟩

/-- all_pairs.sort keyed by change_pct with reverse True: a stable
descending sort. -/
def sortByChangeDesc (ps : List RankedPair) : List RankedPair :=
  List.insertionSort changeDescRel ps

/-- EMAScanner.scan top gainers (ema_touch.py line 320): the first ten of
the descending ranking. -/
def emaTopGainers (ps : List RankedPair) : List RankedPair :=
  (sortByChangeDesc ps).take 10

/-- EMAScanner.scan top losers (ema_touch.py line 323): the python slice
all_pairs[-10:] when at least ten pairs survive, else the empty list. -/
def emaTopLosers (ps : List RankedPair) : List RankedPair :=
  let sorted := sortByChangeDesc ps
  if 10 ≤ sorted.length then sorted.drop (sorted.length - 10) else []

/-- EMAScanner.scan analysis set (ema_touch.py line 326): gainers then
losers. -/
def emaPairsToAnalyze (ps : List RankedPair) : List RankedPair :=
  emaTopGainers ps ++ emaTopLosers ps

/-- ATHATLScanner.scan top gainers (ath_atl_scanner.py line 233), bound 20. -/
def athTopGainers (ps : List RankedPair) : List RankedPair :=
  (sortByChangeDesc ps).take 20

/-- ATHATLScanner.scan top losers (ath_atl_scanner.py line 234), bound 20. -/
def athTopLosers (ps : List RankedPair) : List RankedPair :=
  let sorted := sortByChangeDesc ps
  if 20 ≤ sorted.length then sorted.drop (sorted.length - 20) else []

/-- ATHATLScanner.scan analysis set (ath_atl_scanner.py line 237). -/
def athPairsToAnalyze (ps : List RankedPair) : List RankedPair :=
  athTopGainers ps ++ athTopLosers ps

/-- One ticker of the market snapshot, the fields the scanners read. -/
structure Ticker where
  symbol : String
  lastPrice : ℚ
  volume24h : ℚ
  price24hPcnt : ℚ
deriving DecidableEq

/-- Python str.endswith on the character sequence. -/
def pyEndsWith (s suffixStr : String) : Bool :=
  suffixStr.data.isSuffixOf s.data

/-- The snapshot filter of EMAScanner.scan (ema_touch.py lines 297 to 312)
and ATHATLScanner.scan (lines 208 to 225): keep USDT pairs with enough
24h quote volume and record change percent as price24hPcnt times 100. -/
def filterPairs (tickers : List Ticker) (min_volume_24h : ℚ) :
    List RankedPair :=
  tickers.filterMap (fun t =>
    if pyEndsWith t.symbol "USDT" then
      if t.volume24h * t.lastPrice < min_volume_24h then
        none
      else
        some { symbol := t.symbol, change_pct := t.price24hPcnt * 100 }
    else
      none)

/-- The tickers whose loop body VolumeScanner.scan actually runs the
gainer and loser predicates on (volume.py lines 107 to 121): every USDT
pair with enough 24h quote volume, with no top-N bound. -/
def volumeEvaluatedTickers (tickers : List Ticker) (min_volume_24h : ℚ) :
    List Ticker :=
  (tickers.filter (fun t => pyEndsWith t.symbol "USDT")).filter
    (fun t => ¬ (t.volume24h * t.lastPrice < min_volume_24h))

/-- A gainer or loser entry of VolumeScanner.scan (volume.py lines 127 to
132). -/
structure VolCoin where
  symbol : String
  price : ℚ
  change_pct : ℚ
  volume_24h_usd : ℚ
deriving DecidableEq

/-- The gainers list VolumeScanner.scan accumulates before sorting and
limiting (volume.py lines 114 to 134): every evaluated ticker whose change
percent exceeds the gainers threshold and which is not cooling down. -/
def volumeGainersPre (tickers : List Ticker) (min_volume_24h : ℚ)
    (gainers_enabled : Bool) (gainers_threshold : ℚ)
    (in_cooldown_gainer : String → Bool) : List VolCoin :=
  (volumeEvaluatedTickers tickers min_volume_24h).filterMap (fun t =>
    if gainers_enabled ∧ t.price24hPcnt * 100 > gainers_threshold then
      if in_cooldown_gainer t.symbol then
        none
      else
        some { symbol := t.symbol, price := t.lastPrice,
               change_pct := t.price24hPcnt * 100,
               volume_24h_usd := t.volume24h * t.lastPrice }
    else
      none)

/-- The losers list VolumeScanner.scan accumulates (volume.py lines 136 to
147). -/
def volumeLosersPre (tickers : List Ticker) (min_volume_24h : ℚ)
    (losers_enabled : Bool) (losers_threshold : ℚ)
    (in_cooldown_loser : String → Bool) : List VolCoin :=
  (volumeEvaluatedTickers tickers min_volume_24h).filterMap (fun t =>
    if losers_enabled ∧ t.price24hPcnt * 100 < -losers_threshold then
      if in_cooldown_loser t.symbol then
        none
      else
        some { symbol := t.symbol, price := t.lastPrice,
               change_pct := t.price24hPcnt * 100,
               volume_24h_usd := t.volume24h * t.lastPrice }
    else
      none)

/-- The descending relation on volume coins. -/
def volChangeDescRel (a b : VolCoin) : Prop := b.change_pct ≤ a.change_pct

instance : DecidableRel volChangeDescRel := by
  unfold volChangeDescRel; infer_instance

/-- The ascending relation on volume coins. -/
def volChangeAscRel (a b : VolCoin) : Prop := a.change_pct ≤ b.change_pct

instance : DecidableRel volChangeAscRel := by
  unfold volChangeAscRel; infer_instance

/-- The gainers and losers VolumeScanner.scan returns (volume.py lines 149
to 157): each pre list sorted, gainers descending, losers ascending, both
cut to max_coins. -/
def volumeScanResult (tickers : List Ticker) (min_volume_24h : ℚ)
    (gainers_enabled : Bool) (gainers_threshold : ℚ)
    (losers_enabled : Bool) (losers_threshold : ℚ)
    (in_cooldown_gainer in_cooldown_loser : String → Bool)
    (max_coins : Nat) : List VolCoin × List VolCoin :=
  let gainers := List.insertionSort volChangeDescRel
    (volumeGainersPre tickers min_volume_24h gainers_enabled gainers_threshold
      in_cooldown_gainer)
  let losers := List.insertionSort volChangeAscRel
    (volumeLosersPre tickers min_volume_24h losers_enabled losers_threshold
      in_cooldown_loser)
  (gainers.take max_coins, losers.take max_coins)

/-- A sample of eleven filtered pairs, already in descending change order,
used as concrete input below. -/
def sampleElevenPairs : List RankedPair :=
  [⟨"AUSDT", 11⟩, ⟨"BUSDT", 10⟩, ⟨"CUSDT", 9⟩, ⟨"DUSDT", 8⟩, ⟨"EUSDT", 7⟩,
   ⟨"FUSDT", 6⟩, ⟨"GUSDT", 5⟩, ⟨"HUSDT", 4⟩, ⟨"IUSDT", 3⟩, ⟨"JUSDT", 2⟩,
   ⟨"KUSDT", 1⟩]

/-- A default kline used to build concrete candle series. -/
def defaultKline : Kline := ⟨0, 1, 1, 1, 1, 1, 1⟩

/-- A sample snapshot of twenty-one USDT tickers, every one passing the
volume filter, with distinct 24h changes of 21 percent down to 1 percent. -/
def sampleMarket : List Ticker :=
  [⟨"S01USDT", 1, 20000000, 21/100⟩, ⟨"S02USDT", 1, 20000000, 20/100⟩,
   ⟨"S03USDT", 1, 20000000, 19/100⟩, ⟨"S04USDT", 1, 20000000, 18/100⟩,
   ⟨"S05USDT", 1, 20000000, 17/100⟩, ⟨"S06USDT", 1, 20000000, 16/100⟩,
   ⟨"S07USDT", 1, 20000000, 15/100⟩, ⟨"S08USDT", 1, 20000000, 14/100⟩,
   ⟨"S09USDT", 1, 20000000, 13/100⟩, ⟨"S10USDT", 1, 20000000, 12/100⟩,
   ⟨"S11USDT", 1, 20000000, 11/100⟩, ⟨"S12USDT", 1, 20000000, 10/100⟩,
   ⟨"S13USDT", 1, 20000000, 9/100⟩, ⟨"S14USDT", 1, 20000000, 8/100⟩,
   ⟨"S15USDT", 1, 20000000, 7/100⟩, ⟨"S16USDT", 1, 20000000, 6/100⟩,
   ⟨"S17USDT", 1, 20000000, 5/100⟩, ⟨"S18USDT", 1, 20000000, 4/100⟩,
   ⟨"S19USDT", 1, 20000000, 3/100⟩, ⟨"S20USDT", 1, 20000000, 2/100⟩,
   ⟨"S21USDT", 1, 20000000, 1/100⟩]

/-- One ticker as DailyFlipScanner.scan reads it (daily_flip.py lines 96 to
105): symbol, last price, 24h base volume and the 24h-ago price
prevPrice24h the change is computed from. -/
structure FlipTicker where
  symbol : String
  lastPrice : ℚ
  volume24h : ℚ
  prevPrice24h : ℚ
deriving DecidableEq

/-- One filtered pair of DailyFlipScanner.scan (daily_flip.py lines 108 to
112): the fields of the appended dict the analysis loop reads. -/
structure FlipPair where
  symbol : String
  change_pct : ℚ
  last_price : ℚ
deriving DecidableEq

/-- The descending relation the flip ranking sorts by. -/
def flipChangeDescRel (a b : FlipPair) : Prop := b.change_pct ≤ a.change_pct

instance : DecidableRel flipChangeDescRel := by
  unfold flipChangeDescRel; infer_instance

instance : IsTotal FlipPair flipChangeDescRel :=
  ⟨fun a b => (le_total b.change_pct a.change_pct).imp id id⟩

instance : IsTrans FlipPair flipChangeDescRel :=
  ⟨fun _ _ _ hab hbc => le_trans hbc hab⟩

/-- The snapshot filter of DailyFlipScanner.scan (daily_flip.py lines 95 to
112): keep USDT pairs with enough 24h quote volume; change percent is
(lastPrice - prevPrice24h) / prevPrice24h times 100. -/
def flipFilterPairs (tickers : List FlipTicker) (min_volume_24h : ℚ) :
    List FlipPair :=
  tickers.filterMap (fun t =>
    if pyEndsWith t.symbol "USDT" then
      if t.volume24h * t.lastPrice < min_volume_24h then
        none
      else
        some { symbol := t.symbol,
               change_pct := (t.lastPrice - t.prevPrice24h) / t.prevPrice24h * 100,
               last_price := t.lastPrice }
    else
      none)

/-- all_pairs.sort of DailyFlipScanner.scan (daily_flip.py line 117):
stable descending by change percent. -/
def sortFlipByChangeDesc (ps : List FlipPair) : List FlipPair :=
  List.insertionSort flipChangeDescRel ps

/-- DailyFlipScanner.scan top gainers (daily_flip.py line 120), bound 20. -/
def flipTopGainers (ps : List FlipPair) : List FlipPair :=
  (sortFlipByChangeDesc ps).take 20

/-- DailyFlipScanner.scan top losers (daily_flip.py line 121): the python
slice all_pairs[-20:] when at least twenty pairs survive, else empty. -/
def flipTopLosers (ps : List FlipPair) : List FlipPair :=
  let sorted := sortFlipByChangeDesc ps
  if 20 ≤ sorted.length then sorted.drop (sorted.length - 20) else []

/-- DailyFlipScanner.scan analysis set (daily_flip.py line 124). -/
def flipPairsToAnalyze (ps : List FlipPair) : List FlipPair :=
  flipTopGainers ps ++ flipTopLosers ps

/-- A sample snapshot of three flip tickers, every one passing the volume
filter, with changes of one percent, minus one percent and zero. -/
def sampleFlipMarket : List FlipTicker :=
  [⟨"AUSDT", 101, 20000000, 100⟩, ⟨"BUSDT", 99, 20000000, 100⟩,
   ⟨"CUSDT", 100, 20000000, 100⟩]

lemma foldl_emaRecurrence (m : ℚ) (l : List ℚ) (e : ℚ) :
    l.foldl (fun ema price => (price - ema) * m + ema) e = emaRecurrence m e l := by
  induction l generalizing e with
  | nil => rfl
  | cons c rest ih => simp [emaRecurrence, ih]

lemma foldl_const_replicate (m c : ℚ) (k : Nat) :
    (List.replicate k c).foldl (fun ema price => (price - ema) * m + ema) c = c := by
  induction k with
  | zero => rfl
  | succ k ih => simpa [List.replicate_succ] using ih

/-- C4: for every valid period and every series at least that long,
calculate_ema seeds with the arithmetic mean of the first period closes and
then applies the spec recurrence ema = (close - ema_prev) * (2/(period+1))
+ ema_prev to the remaining closes in order; being a pure function of the
series, the result is deterministic and cannot depend on earlier history. -/
theorem calculate_ema_matches_spec_recurrence (closes : List ℚ) (period : Nat)
    (h1 : 1 ≤ period) (h2 : period ≤ closes.length) :
    calculate_ema closes period =
      some (emaRecurrence (2 / ((period : ℚ) + 1))
        ((closes.take period).sum / (period : ℚ)) (closes.drop period)) := by
  unfold calculate_ema
  rw [if_neg (by omega)]
  exact congrArg some (foldl_emaRecurrence _ _ _)

/-- Witness for C4 at the three-close series [1, 2, 3] with period 2. -/
theorem calculate_ema_matches_spec_recurrence_witness :
    calculate_ema [1, 2, 3] 2 =
      some (emaRecurrence (2 / ((2 : ℚ) + 1))
        (([ (1 : ℚ), 2, 3].take 2).sum / (2 : ℚ)) ([(1 : ℚ), 2, 3].drop 2)) :=
  calculate_ema_matches_spec_recurrence [1, 2, 3] 2 (by norm_num) (by norm_num)

/-- C7: a constant-price series of any length at least the period is a fixed
point of calculate_ema: the result is exactly the constant price. -/
theorem calculate_ema_constant_fixed_point (p n : Nat) (c : ℚ)
    (h1 : 1 ≤ p) (h2 : p ≤ n) :
    calculate_ema (List.replicate n c) p = some c := by
  unfold calculate_ema
  rw [if_neg (by simp; omega)]
  have hp : ((p : ℚ)) ≠ 0 := by
    exact_mod_cast Nat.pos_iff_ne_zero.mp (by omega)
  have hseed : ((List.replicate n c).take p).sum / (p : ℚ) = c := by
    rw [List.take_replicate, min_eq_left h2, List.sum_replicate, nsmul_eq_mul,
      mul_div_cancel_left₀ _ hp]
  rw [hseed, List.drop_replicate]
  exact congrArg some (foldl_const_replicate _ _ _)

/-- Witness for C7 at period 3 over five copies of the price 7. -/
theorem calculate_ema_constant_fixed_point_witness :
    calculate_ema (List.replicate 5 (7 : ℚ)) 3 = some 7 :=
  calculate_ema_constant_fixed_point 3 5 7 (by norm_num) (by norm_num)

/-- C9: a fetched series of fewer than 223 candles makes the per-symbol
indicator computation return nothing, even when the series is long enough
for the period-60 EMA the predicate uses, so the scan body skips the
symbol and no EMA-proximity candidate can arise from it. -/
theorem ema_skips_below_223_candles (klines : List Kline)
    (ema_touch_threshold : ℚ) (in_cooldown : Bool) (symbol : String)
    (volume_24h : ℚ) (h60 : 60 ≤ klines.length) (h : klines.length < 223) :
    processKlines klines = none ∧
    (calculate_ema ((sortKlinesByTime klines).map (fun k => k.close)) 60).isSome ∧
    emaEvaluateSymbol ema_touch_threshold in_cooldown symbol volume_24h klines
      = none := by
  have h1 : processKlines klines = none := by
    unfold processKlines
    rw [if_pos h]
  refine ⟨h1, ?_, ?_⟩
  · unfold calculate_ema
    rw [if_neg (by
      simp only [List.length_map, sortKlinesByTime, List.length_insertionSort]
      omega)]
    simp
  · unfold emaEvaluateSymbol
    rw [h1]

/-- Witness for C9 at a concrete series of 100 candles. -/
theorem ema_skips_below_223_candles_witness :
    processKlines (List.replicate 100 defaultKline) = none ∧
    (calculate_ema ((sortKlinesByTime (List.replicate 100 defaultKline)).map
      (fun k => k.close)) 60).isSome ∧
    emaEvaluateSymbol 2 false "BTCUSDT" 1 (List.replicate 100 defaultKline)
      = none :=
  ema_skips_below_223_candles (List.replicate 100 defaultKline) 2 false
    "BTCUSDT" 1 (by simp) (by simp)

/-- C10: every is_in_cooldown, written as an explicit state transformer over
the in-memory map and the persisted file, returns its input state
unchanged: the suppression check reads the cooldown state and never
mutates it, in memory or on disk. -/
theorem is_in_cooldown_readonly :
    ∀ (st : CooldownState) (st2 : CooldownState × CooldownState)
      (alert_type symbol : String) (now : DateTime) (cooldown_hours : Nat),
      (ema_is_in_cooldown_st st symbol now).2 = st ∧
      (flip_is_in_cooldown_st st symbol now cooldown_hours).2 = st ∧
      (athatl_is_in_cooldown_st st2 alert_type symbol now cooldown_hours).2 = st2 ∧
      (volume_is_in_cooldown_st st2 alert_type symbol now cooldown_hours).2 = st2 :=
  fun _ _ _ _ _ _ => ⟨rfl, rfl, rfl, rfl⟩

lemma pyLt_replaceMidnight (a b : DateTime) :
    pyDatetimeLt (replaceMidnight a) (replaceMidnight b) ↔
      (a.year < b.year ∨ (a.year = b.year ∧
        (a.month < b.month ∨ (a.month = b.month ∧ a.day < b.day)))) := by
  simp only [pyDatetimeLt, replaceMidnight]
  omega

/-- C2: under the period-aligned policy of the EMA scanner, for a symbol
whose recorded last alert T is not after the current time, the suppression
check returns true exactly while T and now lie on the same UTC calendar
day; once now has crossed the next UTC day boundary the check returns
false regardless of the elapsed wall-clock time. -/
theorem ema_cooldown_period_aligned (last_alerts : List (String × DateTime))
    (symbol : String) (now T : DateTime)
    (hT : last_alerts.lookup symbol = some T) (hle : pyDatetimeLe T now) :
    ema_is_in_cooldown last_alerts symbol now = true ↔ sameUTCDay T now := by
  unfold ema_is_in_cooldown
  rw [hT]
  show (if pyDatetimeLt (replaceMidnight T) (replaceMidnight now) then false
      else true) = true ↔ sameUTCDay T now
  by_cases hlt : pyDatetimeLt (replaceMidnight T) (replaceMidnight now)
  · rw [if_pos hlt]
    simp only [Bool.false_eq_true, false_iff]
    rw [pyLt_replaceMidnight] at hlt
    unfold sameUTCDay
    omega
  · rw [if_neg hlt]
    simp only [true_iff]
    rw [pyLt_replaceMidnight] at hlt
    rcases hle with hlt2 | rfl
    · unfold pyDatetimeLt at hlt2
      unfold sameUTCDay
      omega
    · exact ⟨rfl, rfl, rfl⟩

/-- Witness for C2: an alert at 10:30 UTC suppresses a check one minute
later the same day. -/
theorem ema_cooldown_period_aligned_witness :
    ema_is_in_cooldown [("BTCUSDT", ⟨2026, 10, 12, 10, 30, 0, 0⟩)] "BTCUSDT"
      ⟨2026, 10, 12, 10, 31, 0, 0⟩ = true :=
  (ema_cooldown_period_aligned [("BTCUSDT", ⟨2026, 10, 12, 10, 30, 0, 0⟩)]
    "BTCUSDT" ⟨2026, 10, 12, 10, 31, 0, 0⟩ ⟨2026, 10, 12, 10, 30, 0, 0⟩
    (by decide) (Or.inl (by decide))).mpr ⟨rfl, rfl, rfl⟩

/-- C3: under the rolling-window policy shared by the daily-flip and the
ATH/ATL scanners, a symbol with recorded last alert T is suppressed at now
exactly when now minus T is strictly below cooldownHours, so at and after
the instant T plus cooldownHours the suppression is over: the expiry
boundary itself is not suppressed. -/
theorem rolling_cooldown_strict_window
    (last_alerts last_atl_alerts : List (String × DateTime)) (symbol : String)
    (now T : DateTime) (cooldown_hours : Nat)
    (hT : last_alerts.lookup symbol = some T) :
    (flip_is_in_cooldown last_alerts symbol now cooldown_hours = true ↔
      dtSubMicro now T < (cooldown_hours * usPerHour : Nat)) ∧
    athatl_is_in_cooldown last_alerts last_atl_alerts "ath" symbol now
        cooldown_hours =
      flip_is_in_cooldown last_alerts symbol now cooldown_hours ∧
    ((cooldown_hours * usPerHour : Nat) ≤ dtSubMicro now T →
      flip_is_in_cooldown last_alerts symbol now cooldown_hours = false ∧
      athatl_is_in_cooldown last_alerts last_atl_alerts "ath" symbol now
        cooldown_hours = false) := by
  have hath : athatl_is_in_cooldown last_alerts last_atl_alerts "ath" symbol now
      cooldown_hours = flip_is_in_cooldown last_alerts symbol now cooldown_hours :=
    rfl
  have hflip : flip_is_in_cooldown last_alerts symbol now cooldown_hours =
      decide (dtSubMicro now T < (cooldown_hours * usPerHour : Nat)) := by
    unfold flip_is_in_cooldown
    rw [hT]
  refine ⟨?_, hath, fun hge => ?_⟩
  · rw [hflip]
    simp only [decide_eq_true_eq]
  · have hnot : ¬ dtSubMicro now T < (cooldown_hours * usPerHour : Nat) :=
      not_lt.mpr hge
    constructor
    · rw [hflip]
      simpa using hnot
    · rw [hath, hflip]
      simpa using hnot

/-- Witness for C3: an alert two hours old with cooldownHours two is
exactly at the expiry boundary and is no longer suppressed. -/
theorem rolling_cooldown_strict_window_witness :
    (flip_is_in_cooldown [("BTCUSDT", ⟨2026, 10, 12, 8, 0, 0, 0⟩)] "BTCUSDT"
        ⟨2026, 10, 12, 10, 0, 0, 0⟩ 2 = true ↔
      dtSubMicro ⟨2026, 10, 12, 10, 0, 0, 0⟩ ⟨2026, 10, 12, 8, 0, 0, 0⟩ <
        (2 * usPerHour : Nat)) ∧
    athatl_is_in_cooldown [("BTCUSDT", ⟨2026, 10, 12, 8, 0, 0, 0⟩)] [] "ath"
        "BTCUSDT" ⟨2026, 10, 12, 10, 0, 0, 0⟩ 2 =
      flip_is_in_cooldown [("BTCUSDT", ⟨2026, 10, 12, 8, 0, 0, 0⟩)] "BTCUSDT"
        ⟨2026, 10, 12, 10, 0, 0, 0⟩ 2 ∧
    ((2 * usPerHour : Nat) ≤
        dtSubMicro ⟨2026, 10, 12, 10, 0, 0, 0⟩ ⟨2026, 10, 12, 8, 0, 0, 0⟩ →
      flip_is_in_cooldown [("BTCUSDT", ⟨2026, 10, 12, 8, 0, 0, 0⟩)] "BTCUSDT"
          ⟨2026, 10, 12, 10, 0, 0, 0⟩ 2 = false ∧
      athatl_is_in_cooldown [("BTCUSDT", ⟨2026, 10, 12, 8, 0, 0, 0⟩)] [] "ath"
        "BTCUSDT" ⟨2026, 10, 12, 10, 0, 0, 0⟩ 2 = false) :=
  rolling_cooldown_strict_window [("BTCUSDT", ⟨2026, 10, 12, 8, 0, 0, 0⟩)] []
    "BTCUSDT" ⟨2026, 10, 12, 10, 0, 0, 0⟩ ⟨2026, 10, 12, 8, 0, 0, 0⟩ 2
    (by decide)

lemma digitChar_facts : ∀ d : Nat, d < 10 →
    isDigitChar (digitChar d) = true ∧ charVal (digitChar d) = d := by
  decide

lemma parseDigits_padDigits (w : Nat) : ∀ (n acc : Nat) (rest : List Char),
    n < 10 ^ w →
    parseDigits w acc (padDigits w n ++ rest) = some (acc * 10 ^ w + n, rest) := by
  induction w with
  | zero =>
      intro n acc rest h
      interval_cases n
      simp [padDigits, parseDigits]
  | succ w ih =>
      intro n acc rest h
      have hd : n / 10 ^ w < 10 := by
        apply Nat.div_lt_of_lt_mul
        calc n < 10 ^ (w + 1) := h
          _ = 10 ^ w * 10 := pow_succ 10 w
      have hr : n % 10 ^ w < 10 ^ w := Nat.mod_lt _ (pow_pos (by norm_num) w)
      simp only [padDigits, List.cons_append, parseDigits,
        (digitChar_facts _ hd).1, if_true, (digitChar_facts _ hd).2,
        List.append_eq]
      rw [ih (n % 10 ^ w) _ rest hr]
      have hdm : 10 ^ w * (n / 10 ^ w) + n % 10 ^ w = n := Nat.div_add_mod n _
      congr 2
      calc (acc * 10 + n / 10 ^ w) * 10 ^ w + n % 10 ^ w
          = acc * (10 ^ w * 10) + (10 ^ w * (n / 10 ^ w) + n % 10 ^ w) := by ring
        _ = acc * 10 ^ (w + 1) + n := by rw [hdm, ← pow_succ]

lemma parseDigits_padDigits_nil (w n acc : Nat) (h : n < 10 ^ w) :
    parseDigits w acc (padDigits w n) = some (acc * 10 ^ w + n, []) := by
  have h2 := parseDigits_padDigits w n acc [] h
  rwa [List.append_nil] at h2

lemma fromiso_isoformat (d : DateTime) (h : d.Valid) :
    pyFromisoformat d.isoformat = some d := by
  obtain ⟨h1, h2, h3, h4, h5, h6, h7, h8, h9, h10⟩ := h
  have hv : d.Valid := ⟨h1, h2, h3, h4, h5, h6, h7, h8, h9, h10⟩
  show fromisoChars d.isoChars = some d
  unfold DateTime.isoChars fromisoChars
  rw [parseDigits_padDigits 4 d.year 0 _ (Nat.lt_of_le_of_lt h2 (by norm_num))]
  simp only [expectChar, eq_self_iff_true, if_true]
  rw [parseDigits_padDigits 2 d.month 0 _ (Nat.lt_of_le_of_lt h4 (by norm_num))]
  simp only [expectChar, eq_self_iff_true, if_true]
  rw [parseDigits_padDigits 2 d.day 0 _ (Nat.lt_of_le_of_lt h6 (by norm_num))]
  simp only [expectChar, eq_self_iff_true, if_true]
  rw [parseDigits_padDigits 2 d.hour 0 _ (Nat.lt_trans h7 (by norm_num))]
  simp only [expectChar, eq_self_iff_true, if_true]
  rw [parseDigits_padDigits 2 d.minute 0 _ (Nat.lt_trans h8 (by norm_num))]
  simp only [expectChar, eq_self_iff_true, if_true]
  by_cases hus : d.microsecond = 0
  · rw [if_pos hus, List.append_nil,
      parseDigits_padDigits_nil 2 d.second 0 (Nat.lt_trans h9 (by norm_num))]
    norm_num [finishIso]
    have hd : (⟨d.year, d.month, d.day, d.hour, d.minute, d.second, 0⟩
        : DateTime) = d := by
      cases d
      simp_all
    rw [hd]
    exact ⟨hv, rfl⟩
  · rw [if_neg hus,
      parseDigits_padDigits 2 d.second 0 _ (Nat.lt_trans h9 (by norm_num))]
    norm_num
    rw [parseDigits_padDigits_nil 6 d.microsecond 0
      (lt_of_lt_of_eq h10 (by norm_num))]
    norm_num [finishIso]
    have hd : (⟨d.year, d.month, d.day, d.hour, d.minute, d.second,
        d.microsecond⟩ : DateTime) = d := by
      cases d
      rfl
    rw [hd]
    intro hnv
    exact absurd hv hnv
/-- C8: saving the in-memory cooldown map to its persisted textual form
(isoformat strings keyed by symbol) and loading it back parses every entry
and returns exactly the original map, microsecond precision included. -/
theorem cooldown_save_load_roundtrip (m : List (String × DateTime))
    (h : ∀ kv ∈ m, DateTime.Valid kv.2) :
    loadCooldown (saveCooldown m) = some m := by
  induction m with
  | nil => rfl
  | cons kv rest ih =>
      have hkv : kv.2.Valid := h kv (List.mem_cons_self kv rest)
      have hrest : ∀ x ∈ rest, DateTime.Valid x.2 :=
        fun x hx => h x (List.mem_cons_of_mem kv hx)
      have hparse : pyFromisoformat kv.2.isoformat = some kv.2 :=
        fromiso_isoformat kv.2 hkv
      have ihr : loadCooldown (saveCooldown rest) = some rest := ih hrest
      simp only [saveCooldown, loadCooldown, List.map_cons, List.mapM_cons,
        hparse, Option.map_some]
      simp only [saveCooldown, loadCooldown] at ihr
      rw [ihr]
      rfl

/-- Witness for C8 on a two-entry map, one timestamp with zero
microseconds and one with a nonzero microsecond field. -/
theorem cooldown_save_load_roundtrip_witness :
    loadCooldown (saveCooldown
      [("BTCUSDT", ⟨2026, 10, 12, 8, 0, 0, 0⟩),
       ("ETHUSDT", ⟨2026, 1, 2, 3, 4, 5, 678901⟩)]) =
      some [("BTCUSDT", ⟨2026, 10, 12, 8, 0, 0, 0⟩),
            ("ETHUSDT", ⟨2026, 1, 2, 3, 4, 5, 678901⟩)] :=
  cooldown_save_load_roundtrip
    [("BTCUSDT", ⟨2026, 10, 12, 8, 0, 0, 0⟩),
     ("ETHUSDT", ⟨2026, 1, 2, 3, 4, 5, 678901⟩)] (by decide)

lemma getLast?_drop_of_lt {α : Type} (l : List α) (n : Nat) (h : n < l.length) :
    (l.drop n).getLast? = l.getLast? := by
  induction l generalizing n with
  | nil => simp at h
  | cons a t ih =>
      cases n with
      | zero => rfl
      | succ n =>
          simp only [List.drop_succ_cons]
          have hn : n < t.length := by simpa using h
          rw [ih n hn]
          cases t with
          | nil => simp at hn
          | cons b t2 => rw [List.getLast?_cons_cons]

lemma sorted_desc_getLast_min (s : List RankedPair)
    (hs : s.Sorted changeDescRel) (lp : RankedPair)
    (hl : s.getLast? = some lp) :
    ∀ x ∈ s, lp.change_pct ≤ x.change_pct := by
  induction s with
  | nil => simp at hl
  | cons a t ih =>
      cases t with
      | nil =>
          simp only [List.getLast?_singleton, Option.some.injEq] at hl
          subst hl
          intro x hx
          simp only [List.mem_singleton] at hx
          subst hx
          exact le_refl _
      | cons b t2 =>
          rw [List.getLast?_cons_cons] at hl
          have hmem : lp ∈ b :: t2 := by
            obtain ⟨hne, heq⟩ := List.mem_getLast?_eq_getLast (l := b :: t2)
              (x := lp) (by rw [hl]; rfl)
            rw [heq]
            exact List.getLast_mem hne
          intro x hx
          rcases List.mem_cons.mp hx with rfl | hx2
          · exact List.rel_of_sorted_cons hs lp hmem
          · exact ih hs.of_cons hl x hx2

/-- Counterexample for C5 on eleven surviving pairs: the losers list the
scan builds is the last ten entries of the descending ranking kept in that
order, not reversed; its first entry is not the most negative pair, which
appears last instead. -/
theorem top_losers_not_reversed_counterexample :
    emaTopLosers sampleElevenPairs ≠
      (sortByChangeDesc sampleElevenPairs).reverse.take 10 ∧
    (emaTopLosers sampleElevenPairs).head? = some ⟨"BUSDT", 10⟩ ∧
    (emaTopLosers sampleElevenPairs).head? ≠ some ⟨"KUSDT", 1⟩ ∧
    (emaTopLosers sampleElevenPairs).getLast? = some ⟨"KUSDT", 1⟩ := by
  norm_num [emaTopLosers, sortByChangeDesc, sampleElevenPairs,
    List.insertionSort, List.orderedInsert, changeDescRel]

/-- C5 as amended: topGainers is the first ten of the descending ranking;
topLosers is the last ten entries kept in the same descending order (the
reverse of the reversed rankings first ten), so the most negative change
sits last in topLosers, not first. -/
theorem top_losers_last_topN_descending (ps : List RankedPair)
    (h : 10 ≤ ps.length) :
    emaTopGainers ps = (sortByChangeDesc ps).take 10 ∧
    emaTopLosers ps = ((sortByChangeDesc ps).reverse.take 10).reverse ∧
    ∀ lp, (emaTopLosers ps).getLast? = some lp →
      ∀ x ∈ ps, lp.change_pct ≤ x.change_pct := by
  have hlen : (sortByChangeDesc ps).length = ps.length :=
    List.length_insertionSort _ _
  have hlos : emaTopLosers ps =
      (sortByChangeDesc ps).drop ((sortByChangeDesc ps).length - 10) := by
    unfold emaTopLosers
    rw [if_pos (by omega)]
  refine ⟨rfl, ?_, ?_⟩
  · rw [hlos, List.take_reverse, List.reverse_reverse]
  · intro lp hlp x hx
    have hmem : x ∈ sortByChangeDesc ps :=
      ((List.perm_insertionSort changeDescRel ps).mem_iff).mpr hx
    have hdroplt : (sortByChangeDesc ps).length - 10 <
        (sortByChangeDesc ps).length := by omega
    rw [hlos, getLast?_drop_of_lt _ _ hdroplt] at hlp
    exact sorted_desc_getLast_min _ (List.sorted_insertionSort changeDescRel ps)
      lp hlp x hmem

/-- Witness for the amended C5 at the eleven sample pairs. -/
theorem top_losers_last_topN_descending_witness :
    emaTopGainers sampleElevenPairs =
      (sortByChangeDesc sampleElevenPairs).take 10 ∧
    emaTopLosers sampleElevenPairs =
      ((sortByChangeDesc sampleElevenPairs).reverse.take 10).reverse ∧
    ∀ lp, (emaTopLosers sampleElevenPairs).getLast? = some lp →
      ∀ x ∈ sampleElevenPairs, lp.change_pct ≤ x.change_pct :=
  top_losers_last_topN_descending sampleElevenPairs (by decide)

/-- Counterexample for C6: on a 21-ticker filtered snapshot, the volume
scanner runs its predicate over all 21 filtered tickers and its gainers
list picks up the symbol ranked 11th by change, a symbol that the bounded
interesting set of ten gainers plus ten losers excludes, so the volume
strategy evaluates the full filtered market rather than a subset of the
bounded set. -/
theorem volume_scanner_evaluates_full_filtered_market :
    (volumeEvaluatedTickers sampleMarket 10000000).length = 21 ∧
    (⟨"S11USDT", 1, 11, 20000000⟩ : VolCoin) ∈
      volumeGainersPre sampleMarket 10000000 true 0 (fun _ => false) ∧
    "S11USDT" ∉ (emaPairsToAnalyze (filterPairs sampleMarket 10000000)).map
        (fun p => p.symbol) := by
  refine ⟨?_, ?_, ?_⟩
  · norm_num [volumeEvaluatedTickers, sampleMarket, pyEndsWith,
      List.isSuffixOf]
  · norm_num [volumeGainersPre, volumeEvaluatedTickers, sampleMarket,
      pyEndsWith, List.isSuffixOf]
  · have hfp : filterPairs sampleMarket 10000000 =
        [⟨"S01USDT", 21⟩, ⟨"S02USDT", 20⟩, ⟨"S03USDT", 19⟩, ⟨"S04USDT", 18⟩,
         ⟨"S05USDT", 17⟩, ⟨"S06USDT", 16⟩, ⟨"S07USDT", 15⟩, ⟨"S08USDT", 14⟩,
         ⟨"S09USDT", 13⟩, ⟨"S10USDT", 12⟩, ⟨"S11USDT", 11⟩, ⟨"S12USDT", 10⟩,
         ⟨"S13USDT", 9⟩, ⟨"S14USDT", 8⟩, ⟨"S15USDT", 7⟩, ⟨"S16USDT", 6⟩,
         ⟨"S17USDT", 5⟩, ⟨"S18USDT", 4⟩, ⟨"S19USDT", 3⟩, ⟨"S20USDT", 2⟩,
         ⟨"S21USDT", 1⟩] := by
      simp +decide [filterPairs, sampleMarket, pyEndsWith]
    rw [hfp]
    norm_num [emaPairsToAnalyze, emaTopGainers, emaTopLosers,
      sortByChangeDesc, List.insertionSort, List.orderedInsert, changeDescRel]
    decide

/-- C6 as amended: the EMA-proximity, range-flip and extremum-proximity
evaluators run over at most ten plus ten, respectively twenty plus twenty,
ranked pairs drawn from their filtered snapshots, while the volume scanner
applies its gainer predicate to every filtered ticker: each filtered
ticker passing the threshold and not cooling down lands in the
accumulated gainers. -/
theorem evaluated_sets_bounded_amended (tickers : List Ticker)
    (flip_tickers : List FlipTicker)
    (min_volume_24h gainers_threshold : ℚ) (gainers_enabled : Bool)
    (in_cooldown_gainer : String → Bool) :
    (emaPairsToAnalyze (filterPairs tickers min_volume_24h)).length ≤ 20 ∧
    (∀ p ∈ emaPairsToAnalyze (filterPairs tickers min_volume_24h),
      p ∈ filterPairs tickers min_volume_24h) ∧
    (athPairsToAnalyze (filterPairs tickers min_volume_24h)).length ≤ 40 ∧
    (flipPairsToAnalyze (flipFilterPairs flip_tickers min_volume_24h)).length
      ≤ 40 ∧
    (∀ p ∈ flipPairsToAnalyze (flipFilterPairs flip_tickers min_volume_24h),
      p ∈ flipFilterPairs flip_tickers min_volume_24h) ∧
    (∀ t ∈ volumeEvaluatedTickers tickers min_volume_24h,
      gainers_enabled = true → gainers_threshold < t.price24hPcnt * 100 →
      in_cooldown_gainer t.symbol = false →
        (⟨t.symbol, t.lastPrice, t.price24hPcnt * 100,
          t.volume24h * t.lastPrice⟩ : VolCoin) ∈
          volumeGainersPre tickers min_volume_24h gainers_enabled
            gainers_threshold in_cooldown_gainer) := by
  have hemaEq : emaTopLosers (filterPairs tickers min_volume_24h) =
      if 10 ≤ (sortByChangeDesc (filterPairs tickers min_volume_24h)).length then
        (sortByChangeDesc (filterPairs tickers min_volume_24h)).drop
          ((sortByChangeDesc (filterPairs tickers min_volume_24h)).length - 10)
      else [] := rfl
  have hathEq : athTopLosers (filterPairs tickers min_volume_24h) =
      if 20 ≤ (sortByChangeDesc (filterPairs tickers min_volume_24h)).length then
        (sortByChangeDesc (filterPairs tickers min_volume_24h)).drop
          ((sortByChangeDesc (filterPairs tickers min_volume_24h)).length - 20)
      else [] := rfl
  have hflipEq : flipTopLosers (flipFilterPairs flip_tickers min_volume_24h) =
      if 20 ≤ (sortFlipByChangeDesc
          (flipFilterPairs flip_tickers min_volume_24h)).length then
        (sortFlipByChangeDesc (flipFilterPairs flip_tickers min_volume_24h)).drop
          ((sortFlipByChangeDesc
            (flipFilterPairs flip_tickers min_volume_24h)).length - 20)
      else [] := rfl
  refine ⟨?_, ?_, ?_, ?_, ?_, ?_⟩
  · unfold emaPairsToAnalyze emaTopGainers
    rw [List.length_append, hemaEq]
    have h1 := List.length_take_le 10
      (sortByChangeDesc (filterPairs tickers min_volume_24h))
    split
    · rw [List.length_drop]
      omega
    · simp
  · intro p hp
    have hsorted : p ∈ sortByChangeDesc (filterPairs tickers min_volume_24h) := by
      unfold emaPairsToAnalyze emaTopGainers at hp
      rw [hemaEq] at hp
      rcases List.mem_append.mp hp with h | h
      · exact List.take_subset _ _ h
      · split at h
        · exact List.drop_subset _ _ h
        · simp at h
    exact ((List.perm_insertionSort changeDescRel _).mem_iff).mp hsorted
  · unfold athPairsToAnalyze athTopGainers
    rw [List.length_append, hathEq]
    have h1 := List.length_take_le 20
      (sortByChangeDesc (filterPairs tickers min_volume_24h))
    split
    · rw [List.length_drop]
      omega
    · simp
  · unfold flipPairsToAnalyze flipTopGainers
    rw [List.length_append, hflipEq]
    have h1 := List.length_take_le 20
      (sortFlipByChangeDesc (flipFilterPairs flip_tickers min_volume_24h))
    split
    · rw [List.length_drop]
      omega
    · simp
  · intro p hp
    have hsorted : p ∈ sortFlipByChangeDesc
        (flipFilterPairs flip_tickers min_volume_24h) := by
      unfold flipPairsToAnalyze flipTopGainers at hp
      rw [hflipEq] at hp
      rcases List.mem_append.mp hp with h | h
      · exact List.take_subset _ _ h
      · split at h
        · exact List.drop_subset _ _ h
        · simp at h
    exact ((List.perm_insertionSort flipChangeDescRel _).mem_iff).mp hsorted
  · intro t ht hge hth hcd
    unfold volumeGainersPre
    apply List.mem_filterMap.mpr
    refine ⟨t, ht, ?_⟩
    rw [if_pos ⟨hge, hth⟩, if_neg (by simp [hcd])]

/-- Witness for the amended C6 at the sample markets. -/
theorem evaluated_sets_bounded_amended_witness :
    (emaPairsToAnalyze (filterPairs sampleMarket 10000000)).length ≤ 20 ∧
    (∀ p ∈ emaPairsToAnalyze (filterPairs sampleMarket 10000000),
      p ∈ filterPairs sampleMarket 10000000) ∧
    (athPairsToAnalyze (filterPairs sampleMarket 10000000)).length ≤ 40 ∧
    (flipPairsToAnalyze (flipFilterPairs sampleFlipMarket 10000000)).length
      ≤ 40 ∧
    (∀ p ∈ flipPairsToAnalyze (flipFilterPairs sampleFlipMarket 10000000),
      p ∈ flipFilterPairs sampleFlipMarket 10000000) ∧
    (∀ t ∈ volumeEvaluatedTickers sampleMarket 10000000,
      true = true → 0 < t.price24hPcnt * 100 →
      (fun _ => false) t.symbol = false →
        (⟨t.symbol, t.lastPrice, t.price24hPcnt * 100,
          t.volume24h * t.lastPrice⟩ : VolCoin) ∈
          volumeGainersPre sampleMarket 10000000 true 0 (fun _ => false)) :=
  evaluated_sets_bounded_amended sampleMarket sampleFlipMarket 10000000 0 true
    (fun _ => false)

/-- C1 failing input: on a series whose low is 50 and high is 100, a price
of 90 sits 80 percent above the low, far outside the 2 percent proximity
threshold, yet the scan body emits an ATL candidate because its condition
is atl_distance_pct ≥ -threshold rather than ≤ threshold; the ATH side
correctly stays silent at 10 percent below the high. -/
theorem atl_candidate_far_from_low :
    (athAtlEvaluateSymbol true true 2 false false "XUSDT" 90 0
        [⟨0, 70, 100, 50, 70, 1, 1⟩]).2 =
      some ⟨"XUSDT", 90, 50, 80, false, 0⟩ ∧
    ((90 : ℚ) - 50) / 50 * 100 = 80 ∧
    ¬ ((80 : ℚ) ≤ 2) ∧
    (athAtlEvaluateSymbol true true 2 false false "XUSDT" 90 0
        [⟨0, 70, 100, 50, 70, 1, 1⟩]).1 = none := by
  refine ⟨?_, by norm_num, by norm_num, ?_⟩ <;>
    norm_num [athAtlEvaluateSymbol, calculate_ath_atl]
